import Mathlib

/-!
Shallow embedding of the uplink agent's Serializer, Bridge and Process
Executor (src/uplink/src/base/serializer.rs, src/uplink/src/collector/bridge.rs,
src/uplink/src/base/actions/process.rs).

External collaborators are modelled as oracles:
the disk spool (`disk::Storage`, an external crate treated as a black box by the
spec) is a script of responses to `reload_on_eof` / `read` / `write` /
`flush_on_overflow`, plus a log of successfully written publishes; the MQTT
client (`rumqttc`, external) is a script of `try_publish` outcomes and, for the
async `publish`, outcomes carried on the scheduler events.  The `select!`-based
loops of the state functions are driven by explicit event lists: each event
names the branch that won that iteration together with the value it produced.

Rust machine integers: `usize` fields updated with `saturating_add` are
embedded as `min (x + n) USIZE_MAX`; `saturating_sub` is `Nat` subtraction
(which already saturates at 0); plain `+=` on `u32`/`usize` counters panics on
overflow in Rust (debug) rather than wrapping, so completed executions satisfy
exact `Nat` addition, which is how they are embedded.  Rust `String::len` is a
byte count; it is embedded as `String.length`, which agrees on ASCII data.
-/

namespace Uplink

/-- Payload bytes. -/
abbrev Bytes := List Nat

/-- rumqttc `Publish` packet, restricted to the fields the serializer touches
(`topic`, `payload`, `pkid`; QoS is always AtLeastOnce). -/
structure Publish where
  topic : String
  payload : Bytes
  pkid : Nat
deriving DecidableEq

/-- rumqttc `Packet` as read back from the spool: a `Publish` or anything
else (the serializer declares non-Publish packets unreachable). -/
inductive Packet
  | publish (p : Publish)
  | other
deriving DecidableEq

/-- A `Box<dyn Package>` received on the collector channel: its `topic()`,
`serialize()` result and `anomalies()`. -/
structure PackageData where
  topic : String
  payload : Bytes
  anomalies : Option (String × Nat)
deriving DecidableEq

/-- serializer.rs `Status`. -/
inductive Status
  | Normal
  | SlowEventloop (p : Publish)
  | EventLoopReady
  | EventLoopCrash (p : Publish)
deriving DecidableEq

/-- Largest value of a 64-bit Rust `usize`. -/
def USIZE_MAX : Nat := 2 ^ 64 - 1

/-- serializer.rs `Metrics` (the serde-skipped `topic` is kept since `next`
returns it). -/
structure Metrics where
  topic : String
  sequence : Nat
  timestamp : Nat
  total_sent_size : Nat
  total_disk_size : Nat
  lost_segments : Nat
  errors : String
  error_count : Nat
deriving DecidableEq

/-- `Metrics::new`: all counters zero, `errors` empty. -/
def Metrics.new (topic : String) : Metrics :=
  ⟨topic, 0, 0, 0, 0, 0, "", 0⟩

/-- `Metrics::add_total_sent_size` (`saturating_add`). -/
def Metrics.add_total_sent_size (m : Metrics) (size : Nat) : Metrics :=
  { m with total_sent_size := min (m.total_sent_size + size) USIZE_MAX }

/-- `Metrics::add_total_disk_size` (`saturating_add`). -/
def Metrics.add_total_disk_size (m : Metrics) (size : Nat) : Metrics :=
  { m with total_disk_size := min (m.total_disk_size + size) USIZE_MAX }

/-- `Metrics::sub_total_disk_size` (`saturating_sub`, which is `Nat`
subtraction). -/
def Metrics.sub_total_disk_size (m : Metrics) (size : Nat) : Metrics :=
  { m with total_disk_size := m.total_disk_size - size }

/-- `Metrics::increment_lost_segments`. -/
def Metrics.increment_lost_segments (m : Metrics) : Metrics :=
  { m with lost_segments := m.lost_segments + 1 }

/-- `Metrics::add_errors`: always add `count` to `error_count`; append
`error` and a `" | "` separator only when the current length is not already
past 1024 (the check is `self.errors.len() > 1024`, made before appending). -/
def Metrics.add_errors (m : Metrics) (error : String) (count : Nat) : Metrics :=
  if 1024 < m.errors.length then { m with error_count := m.error_count + count }
  else { m with
    error_count := m.error_count + count
    errors := m.errors ++ error ++ " | " }

/-- JSON rendering of the metrics record, mirroring the serde field order of
`serde_json::to_vec(&vec![&self])` (`topic` is `serde(skip_serializing)`). -/
def Metrics.render (m : Metrics) : String :=
  "[\x7b\"sequence\":" ++ toString m.sequence ++
  ",\"timestamp\":" ++ toString m.timestamp ++
  ",\"total_sent_size\":" ++ toString m.total_sent_size ++
  ",\"total_disk_size\":" ++ toString m.total_disk_size ++
  ",\"lost_segments\":" ++ toString m.lost_segments ++
  ",\"errors\":\"" ++ m.errors ++
  "\",\"error_count\":" ++ toString m.error_count ++ "\x7d]"

/-- `Metrics::next`: stamp `timestamp` (the clock is passed in as `now`),
bump `sequence`, serialize, then clear `errors` and `lost_segments` and
return the topic and payload. -/
def Metrics.next (m : Metrics) (now : Nat) : Metrics × String × Bytes :=
  let m1 := { m with timestamp := now, sequence := m.sequence + 1 }
  let payload := (Metrics.render m1).toList.map Char.toNat
  ({ m1 with errors := "", lost_segments := 0 }, m1.topic, payload)

/-- One operation on a `Metrics` value, covering every mutation the
serializer performs. -/
inductive MOp
  | addSent (n : Nat)
  | addDisk (n : Nat)
  | subDisk (n : Nat)
  | incLost
  | addErrors (e : String) (c : Nat)
  | next (now : Nat)
deriving DecidableEq

/-- Apply one `MOp`. -/
def Metrics.apply (m : Metrics) : MOp → Metrics
  | .addSent n => m.add_total_sent_size n
  | .addDisk n => m.add_total_disk_size n
  | .subDisk n => m.sub_total_disk_size n
  | .incLost => m.increment_lost_segments
  | .addErrors e c => m.add_errors e c
  | .next now => (m.next now).1

/-- Apply a sequence of `MOp`s in order. -/
def Metrics.applyAll (m : Metrics) : List MOp → Metrics
  | [] => m
  | op :: rest => (m.apply op).applyAll rest

/-- Fold a sequence of `add_errors` calls. -/
def Metrics.addErrorsAll (m : Metrics) : List (String × Nat) → Metrics
  | [] => m
  | (e, c) :: rest => (m.add_errors e c).addErrorsAll rest

/-- Sum of the `count` arguments of a sequence of `add_errors` calls. -/
def sumCounts : List (String × Nat) → Nat
  | [] => 0
  | (_, c) :: rest => c + sumCounts rest

/-- Oracle model of the external `disk::Storage` (black box per the spec):
scripts of responses for each operation the serializer performs, plus the log
of publishes successfully serialized into the write buffer.  An exhausted
script defaults to the success path (`reload_on_eof` = all drained, writes and
flushes succeed, a read with no scripted answer errors). -/
structure StorageModel where
  reloads : List (Except Unit Bool)
  reads : List (Except Unit Packet)
  writes : List (Except Unit Unit)
  flushes : List (Except Unit (Option Nat))
  written : List Publish

/-- Next `reload_on_eof()` response. -/
def StorageModel.popReload (st : StorageModel) : Except Unit Bool × StorageModel :=
  match st.reloads with
  | [] => (.ok true, st)
  | r :: rest => (r, { st with reloads := rest })

/-- Next `read(storage.reader(), max_packet_size)` response. -/
def StorageModel.popRead (st : StorageModel) : Except Unit Packet × StorageModel :=
  match st.reads with
  | [] => (.error (), st)
  | r :: rest => (r, { st with reads := rest })

/-- Next `publish.write(&mut storage.writer())` response; on success the
publish is appended to the `written` log. -/
def StorageModel.popWrite (st : StorageModel) (p : Publish) :
    Except Unit Unit × StorageModel :=
  match st.writes with
  | [] => (.ok (), { st with written := st.written ++ [p] })
  | .ok () :: rest => (.ok (), { st with writes := rest, written := st.written ++ [p] })
  | .error () :: rest => (.error (), { st with writes := rest })

/-- Next `flush_on_overflow()` response (`some n` = segment `n` was deleted). -/
def StorageModel.popFlush (st : StorageModel) :
    Except Unit (Option Nat) × StorageModel :=
  match st.flushes with
  | [] => (.ok none, st)
  | r :: rest => (r, { st with flushes := rest })

/-- The `if let Some((errors, count)) = data.anomalies()` prologue shared by
`normal`, `disk` and `catchup`. -/
def addAnomalies (m : Metrics) : Option (String × Nat) → Metrics
  | some (e, n) => m.add_errors e n
  | none => m

/-- Spool-side state threaded through the collector-data branch of `disk` and
`catchup`. -/
structure SpoolCtx where
  storage : StorageModel
  metrics : Metrics

/-- The collector-data branch body shared verbatim by `Serializer::disk` and
`Serializer::catchup` (serializer.rs lines 126-154 and 195-223): record
anomalies, build a `pkid = 1` publish, write it to the spool (on failure log
and continue), account `total_disk_size`, flush on overflow (bumping
`lost_segments` when a segment was deleted; on failure log and continue). -/
def spoolIncoming (c : SpoolCtx) (d : PackageData) : SpoolCtx :=
  let m := addAnomalies c.metrics d.anomalies
  let p : Publish := ⟨d.topic, d.payload, 1⟩
  match c.storage.popWrite p with
  | (.error _, st1) => ⟨st1, m⟩
  | (.ok _, st1) =>
    let m := m.add_total_disk_size d.payload.length
    match st1.popFlush with
    | (.error _, st2) => ⟨st2, m⟩
    | (.ok deleted, st2) => ⟨st2, if deleted.isSome then m.increment_lost_segments else m⟩

/-- Outcome of the pinned `send_publish` future in `catchup`. -/
inductive SendOutcome
  | ok
  | errRequestPublish (p : Publish)
  | errRequestOther
  | errOther
deriving DecidableEq

/-- One iteration of `catchup`'s `select!`: either the collector branch won
(with the `recv()` result) or the pinned send resolved. -/
inductive CatchupEv
  | coll (r : Except Unit PackageData)
  | sendDone (r : SendOutcome)

/-- Loop state of `catchup`: the spool oracle, the metrics, the publish
currently handed to `send_publish`, and the log of publishes handed to the
transport so far. -/
structure CState where
  storage : StorageModel
  metrics : Metrics
  pending : Publish
  sent : List Publish

/-- Result of one `catchup` loop iteration. -/
inductive CStep
  | cont (s : CState)
  | done (st : Status) (storage : StorageModel) (metrics : Metrics) (sent : List Publish)
  | fail (storage : StorageModel) (metrics : Metrics) (sent : List Publish)
  | panicked (storage : StorageModel) (metrics : Metrics) (sent : List Publish)

/-- One `select!` iteration of `Serializer::catchup` (serializer.rs lines
193-264).  A collector `recv` error propagates as `Err`; collector data is
spooled; a send failure of kind `ClientError::Request(Publish)` returns
`EventLoopCrash(publish)`; a non-publish failed request is `unreachable!`;
any other client error propagates as `Err`.  On send success: reload
(drained or reload error force `Normal`), read the next record (a read error
forces `Normal`, a non-publish packet is `unreachable!`), account
`total_disk_size` down and `total_sent_size` up, and hand the publish to
`send_publish`. -/
def catchupStep (s : CState) : CatchupEv → CStep
  | .coll (.error _) => .fail s.storage s.metrics s.sent
  | .coll (.ok d) =>
    let c := spoolIncoming ⟨s.storage, s.metrics⟩ d
    .cont { s with storage := c.storage, metrics := c.metrics }
  | .sendDone (.errRequestPublish p) => .done (.EventLoopCrash p) s.storage s.metrics s.sent
  | .sendDone .errRequestOther => .panicked s.storage s.metrics s.sent
  | .sendDone .errOther => .fail s.storage s.metrics s.sent
  | .sendDone .ok =>
    match s.storage.popReload with
    | (.ok true, st1) => .done .Normal st1 s.metrics s.sent
    | (.error _, st1) => .done .Normal st1 s.metrics s.sent
    | (.ok false, st1) =>
      match st1.popRead with
      | (.ok (.publish p), st2) =>
        let m := (s.metrics.sub_total_disk_size p.payload.length).add_total_sent_size
          p.payload.length
        .cont ⟨st2, m, p, s.sent ++ [p]⟩
      | (.ok .other, st2) => .panicked st2 s.metrics s.sent
      | (.error _, st2) => .done .Normal st2 s.metrics s.sent

/-- Result of running `catchup`: either the event script ran out mid-loop
(`stuck`), or the function returned / panicked, carrying the unconsumed
events. -/
inductive CRes
  | stuck (s : CState)
  | done (st : Status) (storage : StorageModel) (metrics : Metrics) (sent : List Publish)
      (rest : List CatchupEv)
  | fail (storage : StorageModel) (metrics : Metrics) (sent : List Publish)
      (rest : List CatchupEv)
  | panicked (storage : StorageModel) (metrics : Metrics) (sent : List Publish)
      (rest : List CatchupEv)

/-- Drive `catchup`'s loop over an event script. -/
def catchupRun : CState → List CatchupEv → CRes
  | s, [] => .stuck s
  | s, ev :: evs =>
    match catchupStep s ev with
    | .cont s1 => catchupRun s1 evs
    | .done st sto m sent => .done st sto m sent evs
    | .fail sto m sent => .fail sto m sent evs
    | .panicked sto m sent => .panicked sto m sent evs

/-- `Serializer::catchup` (serializer.rs lines 169-265).  The prologue calls
`storage.reload_on_eof().unwrap()` — an `Err` there is a panic, not a handled
error; `Ok(true)` returns `Normal` at once.  Otherwise the first record is
read (read error forces `Normal`; a non-publish packet is `unreachable!`) and
handed to `send_publish` with no metrics update, then the loop runs. -/
def catchup (storage : StorageModel) (metrics : Metrics) (evs : List CatchupEv) : CRes :=
  match storage.popReload with
  | (.error _, st1) => .panicked st1 metrics [] evs
  | (.ok true, st1) => .done .Normal st1 metrics [] evs
  | (.ok false, st1) =>
    match st1.popRead with
    | (.ok (.publish p), st2) => catchupRun ⟨st2, metrics, p, [p]⟩ evs
    | (.ok .other, st2) => .panicked st2 metrics [] evs
    | (.error _, st2) => .done .Normal st2 metrics [] evs

/-- Outcome of one `try_publish` call on the rumqttc client: success,
`ClientError::TryRequest` (queue full, the request is handed back), or any
other client error (terminal). -/
inductive TryOutcome
  | ok
  | queueFull
  | clientDead

/-- One iteration of `normal`'s `select!`: the collector branch (with the
`recv()` result) or the 10-second metrics interval tick (carrying the clock
value used for the metrics timestamp). -/
inductive NormalEv
  | coll (r : Except Unit PackageData)
  | tick (now : Nat)

/-- Next scripted `try_publish` outcome (exhausted script defaults to
success). -/
def popTry : List TryOutcome → TryOutcome × List TryOutcome
  | [] => (.ok, [])
  | t :: rest => (t, rest)

/-- Loop state of `normal`: the metrics, the `try_publish` outcome script,
and the log of `try_publish` calls made (topic, payload). -/
structure NState where
  metrics : Metrics
  tries : List TryOutcome
  calls : List (String × Bytes)

/-- Result of one `normal` loop iteration. -/
inductive NStep
  | cont (s : NState)
  | done (st : Status) (s : NState)
  | fail (s : NState)

/-- One `select!` iteration of `Serializer::normal` (serializer.rs lines
271-312).  Collector data: record anomalies, `try_publish` the payload; on
success add the payload size to `total_sent_size` and continue; on queue-full
return `SlowEventloop` carrying the rejected publish; on any other client
error propagate `Err`.  The interval tick emits the metrics record through
the same `try_publish` path. -/
def normalStep (s : NState) : NormalEv → NStep
  | .coll (.error _) => .fail s
  | .coll (.ok d) =>
    let m := addAnomalies s.metrics d.anomalies
    let (o, tries1) := popTry s.tries
    let s1 : NState := ⟨m, tries1, s.calls ++ [(d.topic, d.payload)]⟩
    match o with
    | .ok => .cont { s1 with metrics := m.add_total_sent_size d.payload.length }
    | .queueFull => .done (.SlowEventloop ⟨d.topic, d.payload, 0⟩) s1
    | .clientDead => .fail s1
  | .tick now =>
    let (m1, topic, payload) := s.metrics.next now
    let (o, tries1) := popTry s.tries
    let s1 : NState := ⟨m1, tries1, s.calls ++ [(topic, payload)]⟩
    match o with
    | .ok => .cont { s1 with metrics := m1.add_total_sent_size payload.length }
    | .queueFull => .done (.SlowEventloop ⟨topic, payload, 0⟩) s1
    | .clientDead => .fail s1

/-- Result of running `normal` over an event script. -/
inductive NRes
  | stuck (s : NState)
  | done (st : Status) (s : NState) (rest : List NormalEv)
  | fail (s : NState) (rest : List NormalEv)

/-- Drive `normal`'s loop over an event script. -/
def normalRun : NState → List NormalEv → NRes
  | s, [] => .stuck s
  | s, ev :: evs =>
    match normalStep s ev with
    | .cont s1 => normalRun s1 evs
    | .done st s1 => .done st s1 evs
    | .fail s1 => .fail s1 evs

/-- One iteration of `disk`'s `select!`: the collector branch or the pinned
`client.publish` future resolving (`Ok` or a client error). -/
inductive DiskEv
  | coll (r : Except Unit PackageData)
  | pubDone (r : Except Unit Unit)

/-- Loop state of `disk`. -/
structure DState where
  storage : StorageModel
  metrics : Metrics
  sent : List Publish

/-- Result of one `disk` loop iteration. -/
inductive DStep
  | cont (s : DState)
  | done (st : Status) (s : DState)
  | fail (s : DState)

/-- One `select!` iteration of `Serializer::disk` (serializer.rs lines
124-161): collector data is spooled exactly as in `catchup`; completion of
the pending publish returns `EventLoopReady` on `Ok` and propagates `Err`
otherwise. -/
def diskStep (s : DState) : DiskEv → DStep
  | .coll (.error _) => .fail s
  | .coll (.ok d) =>
    let c := spoolIncoming ⟨s.storage, s.metrics⟩ d
    .cont ⟨c.storage, c.metrics, s.sent⟩
  | .pubDone (.ok _) => .done .EventLoopReady s
  | .pubDone (.error _) => .fail s

/-- Result of running `disk` over an event script. -/
inductive DRes
  | stuck (s : DState)
  | done (st : Status) (s : DState) (rest : List DiskEv)
  | fail (s : DState) (rest : List DiskEv)

/-- Drive `disk`'s loop over an event script. -/
def diskRun : DState → List DiskEv → DRes
  | s, [] => .stuck s
  | s, ev :: evs =>
    match diskStep s ev with
    | .cont s1 => diskRun s1 evs
    | .done st s1 => .done st s1 evs
    | .fail s1 => .fail s1 evs

/-- `Serializer::disk` (serializer.rs lines 115-162): the carried publish is
immediately handed to `client.publish` (hence logged as sent), then the loop
runs. -/
def disk (p : Publish) (storage : StorageModel) (metrics : Metrics)
    (evs : List DiskEv) : DRes :=
  diskRun ⟨storage, metrics, [p]⟩ evs

/-- Result of `Serializer::crash`: the function's only exit is a collector
`recv` error (`fail`); `done` is the shape a returned `Ok(status)` would
take (its Rust signature is `Result<Status, Error>`) and is proved
unreachable; `stuck` means the receive script ran out mid-loop.  `sent` logs
publishes handed to the transport client. -/
inductive CrashRes
  | done (st : Status) (storage : StorageModel) (sent : List Publish)
  | fail (storage : StorageModel) (sent : List Publish)
  | stuck (storage : StorageModel) (sent : List Publish)

/-- Body of one `crash` loop iteration (serializer.rs lines 88-111): build a
`pkid = 1` publish from the received data, write it to the spool (on failure
log and continue), flush on overflow (on failure log and continue).  No
metrics are touched and no client call is made. -/
def crashWrite (storage : StorageModel) (d : PackageData) : StorageModel :=
  let p : Publish := ⟨d.topic, d.payload, 1⟩
  match storage.popWrite p with
  | (.error _, st1) => st1
  | (.ok _, st1) => (st1.popFlush).2

/-- The `loop` of `Serializer::crash` over the collector receive script. -/
def crashLoop : StorageModel → List (Except Unit PackageData) → CrashRes
  | storage, [] => .stuck storage []
  | storage, .error _ :: _ => .fail storage []
  | storage, .ok d :: rest => crashLoop (crashWrite storage d) rest

/-- `Serializer::crash` (serializer.rs lines 84-112).  The carried failed
publish only has its `pkid` set to 1 (`_failed` below, mirroring
`publish.pkid = 1`); the function then enters the receive loop without ever
writing that publish to the spool, despite the comment `Write failed publish
to disk first` above it. -/
def crash (publish : Publish) (storage : StorageModel)
    (recvs : List (Except Unit PackageData)) : CrashRes :=
  let _failed : Publish := { publish with pkid := 1 }
  crashLoop storage recvs

/-- Publishes handed to the transport client during `crash`. -/
def CrashRes.sentOf : CrashRes → List Publish
  | .done _ _ sent => sent
  | .fail _ sent => sent
  | .stuck _ sent => sent

/-- Whether `crash` returned an `Ok(status)`, i.e. transitioned to another
state on its own. -/
def CrashRes.isDone : CrashRes → Bool
  | .done _ _ _ => true
  | .fail _ _ => false
  | .stuck _ _ => false

/-- The per-state environment scripts consumed by one `start` loop
iteration. -/
structure Env where
  storage : StorageModel
  tries : List TryOutcome
  normalEvs : List NormalEv
  catchupEvs : List CatchupEv
  diskEvs : List DiskEv
  crashRecvs : List (Except Unit PackageData)

/-- What one iteration of `Serializer::start`'s loop did: moved to the next
state, returned an error, panicked, or ran out of scripted events. -/
inductive StepOut
  | next (st : Status)
  | failed
  | panicked
  | stuck
deriving DecidableEq

/-- Project a `catchup` result to a `StepOut`. -/
def CRes.out : CRes → StepOut
  | .done st _ _ _ _ => .next st
  | .fail _ _ _ _ => .failed
  | .panicked _ _ _ _ => .panicked
  | .stuck _ => .stuck

/-- Project a `normal` result to a `StepOut`. -/
def NRes.out : NRes → StepOut
  | .done st _ _ => .next st
  | .fail _ _ => .failed
  | .stuck _ => .stuck

/-- Project a `disk` result to a `StepOut`. -/
def DRes.out : DRes → StepOut
  | .done st _ _ => .next st
  | .fail _ _ => .failed
  | .stuck _ => .stuck

/-- Project a `crash` result to a `StepOut`. -/
def CrashRes.out : CrashRes → StepOut
  | .done st _ _ => .next st
  | .fail _ _ => .failed
  | .stuck _ _ => .stuck

/-- One iteration of the `loop` in `Serializer::start` (serializer.rs lines
315-328): dispatch on the current status to the matching state function and
report the transition it produced. -/
def startStep (metrics : Metrics) (st : Status) (env : Env) : StepOut :=
  match st with
  | .Normal => (normalRun ⟨metrics, env.tries, []⟩ env.normalEvs).out
  | .SlowEventloop p => (disk p env.storage metrics env.diskEvs).out
  | .EventLoopReady => (catchup env.storage metrics env.catchupEvs).out
  | .EventLoopCrash p => (crash p env.storage env.crashRecvs).out

/-- Modelled from the spec: the `Action` type lives in
`src/uplink/src/base/actions` which is not under src/; spec section 3 gives
`Action = \x7bid: string, kind: string, payload: string\x7d` and bridge.rs
only reads `action.id`. -/
structure Action where
  id : String
  kind : String
  payload : String
deriving DecidableEq

/-- Modelled from the spec: `ActionResponse` lives in
`src/uplink/src/base/actions` which is not under src/; spec section 3 gives
`ActionResponse = \x7bid, state: string, errors: []string, progress?: int\x7d`
(the optional progress field plays no role in any claim and is omitted). -/
structure ActionResponse where
  id : String
  state : String
  errors : List String
deriving DecidableEq

/-- Modelled from the spec: `ActionResponse::new(id, state)` as used at
bridge.rs lines 76 and 150 — a response with the given id and state and no
errors yet. -/
def ActionResponse.new (id state : String) : ActionResponse :=
  ⟨id, state, []⟩

/-- Modelled from the spec: `ActionResponse::add_error` as used at bridge.rs
lines 77 and 151 — append one error tag. -/
def ActionResponse.add_error (r : ActionResponse) (e : String) : ActionResponse :=
  { r with errors := r.errors ++ [e] }

/-- Modelled from the spec: `ActionResponse::failure(id, error)` as called at
process.rs line 86 — a `Failed` response for `id` carrying the one error
(spec section 4.6: failure responses carry the id given and the error). -/
def ActionResponse.failure (id e : String) : ActionResponse :=
  (ActionResponse.new id "Failed").add_error e

/-- A line received on the bridge socket, after the external
`serde_json::from_str::<Payload>` is applied: either a Point (an object with
a `stream` field, the remaining fields abstracted as `rest`) or not. -/
inductive BridgeLine
  | point (stream : String) (rest : String)
  | invalid
deriving DecidableEq

/-- One iteration of `Bridge::collect`'s `select!`: a socket frame
(`none` = stream closed, `error` = codec error), an action from the cloud
(`none` = channel closed), or the action timeout firing. -/
inductive BridgeEv
  | frame (f : Option (Except Unit BridgeLine))
  | action (a : Option Action)
  | timedOut

/-- Loop state of `Bridge::collect`: the pending action id, the log of
`partitions.fill` calls (stream name, point payload), the failure
`ActionResponse`s sent on `data_tx`, and the actions written out on the
socket. -/
structure BState where
  current_action : Option String
  fills : List (String × String)
  statuses : List ActionResponse
  sentActions : List Action

/-- Result of one `collect` loop iteration. -/
inductive BStep
  | cont (s : BState)
  | fail (s : BState)

/-- One `select!` iteration of `Bridge::collect` (bridge.rs lines 102-157).
A received frame is handled only after `self.current_action.take()`
succeeds: when no action is pending the line is dropped with `Action timed
out already` and the loop continues; otherwise the pending action is
consumed, the line is parsed (a parse error drops it) and the Point is
routed through `partitions.fill`.  An incoming action is recorded as pending
and written out on the socket; the timeout (only armed while an action is
pending) emits an `Action timed out` failure response. -/
def collectStep (s : BState) : BridgeEv → BStep
  | .frame none => .fail s
  | .frame (some (.error _)) => .fail s
  | .frame (some (.ok line)) =>
    match s.current_action with
    | none => .cont s
    | some _ =>
      let s1 := { s with current_action := none }
      match line with
      | .invalid => .cont s1
      | .point str rest => .cont { s1 with fills := s1.fills ++ [(str, rest)] }
  | .action none => .fail s
  | .action (some a) =>
    .cont { s with current_action := some a.id, sentActions := s.sentActions ++ [a] }
  | .timedOut =>
    match s.current_action with
    | none => .cont s
    | some id =>
      .cont { s with
        current_action := none
        statuses := s.statuses ++ [ActionResponse.failure id "Action timed out"] }

/-- A stdout line of the spawned child, after the external
`serde_json::from_str::<ActionResponse>` is applied: either it parsed or it
failed with an error message. -/
inductive StdoutLine
  | parsed (r : ActionResponse)
  | unparseable (err : String)
deriving DecidableEq

/-- One iteration of the capture task's `select!` in
`Process::spawn_and_capture_stdout`: a stdout line, the child exiting, or
the 10-second timeout. -/
inductive CaptureEv
  | line (l : StdoutLine)
  | childDone
  | timedOut

/-- State of the capture task: the `ActionResponse`s filled into the status
bucket, and the shared `last_process_done` flag. -/
structure PState where
  statuses : List ActionResponse
  last_process_done : Bool
deriving DecidableEq

/-- Result of one capture-loop iteration. -/
inductive PStep
  | looping (s : PState)
  | finished (s : PState)
deriving DecidableEq

/-- One `select!` iteration of the capture task (process.rs lines 81-99): a
parsed line is forwarded as-is; an unparseable line is forwarded as
`ActionResponse::failure("dummy", err)` — note the hardcoded `"dummy"` id;
the child exiting only logs; the timeout breaks the loop, after which
`last_process_done` is set back to true. -/
def captureStep (s : PState) : CaptureEv → PStep
  | .line (.parsed r) => .looping { s with statuses := s.statuses ++ [r] }
  | .line (.unparseable e) =>
    .looping { s with statuses := s.statuses ++ [ActionResponse.failure "dummy" e] }
  | .childDone => .looping s
  | .timedOut => .finished { s with last_process_done := true }

/-- A 1022-character error tag (`'e'` repeated). -/
def bigTag : String := String.mk (List.replicate 1022 'e')

/-- Fresh metrics after one `add_errors` with `bigTag`: its `errors` string
is 1025 characters long. -/
def overCapMetrics : Metrics := (Metrics.new "metrics").add_errors bigTag 1

set_option maxRecDepth 8192 in
theorem overCap_length : 1024 < overCapMetrics.errors.length := by decide

theorem add_errors_frozen (m : Metrics) (e : String) (c : Nat)
    (h : 1024 < m.errors.length) :
    m.add_errors e c = { m with error_count := m.error_count + c } := by
  simp only [Metrics.add_errors]
  rw [if_pos h]

theorem apply_step (m : Metrics) (op : MOp) (h : m.total_sent_size ≤ USIZE_MAX) :
    m.sequence ≤ (m.apply op).sequence ∧ m.error_count ≤ (m.apply op).error_count ∧
      m.total_sent_size ≤ (m.apply op).total_sent_size ∧
      (m.apply op).total_sent_size ≤ USIZE_MAX := by
  cases op with
  | addSent n =>
    exact ⟨le_rfl, le_rfl, le_min (Nat.le_add_right _ _) h, min_le_right _ _⟩
  | addDisk n => exact ⟨le_rfl, le_rfl, le_rfl, h⟩
  | subDisk n => exact ⟨le_rfl, le_rfl, le_rfl, h⟩
  | incLost => exact ⟨le_rfl, le_rfl, le_rfl, h⟩
  | addErrors e c =>
    simp only [Metrics.apply, Metrics.add_errors]
    split
    · exact ⟨le_rfl, Nat.le_add_right _ _, le_rfl, h⟩
    · exact ⟨le_rfl, Nat.le_add_right _ _, le_rfl, h⟩
  | next now => exact ⟨Nat.le_succ _, le_rfl, le_rfl, h⟩

theorem applyAll_mono (ops : List MOp) : ∀ (m : Metrics),
    m.total_sent_size ≤ USIZE_MAX →
    m.sequence ≤ (m.applyAll ops).sequence ∧
      m.error_count ≤ (m.applyAll ops).error_count ∧
      m.total_sent_size ≤ (m.applyAll ops).total_sent_size ∧
      (m.applyAll ops).total_sent_size ≤ USIZE_MAX := by
  induction ops with
  | nil => exact fun m h => ⟨le_rfl, le_rfl, le_rfl, h⟩
  | cons op ops ih =>
    intro m h
    obtain ⟨a1, a2, a3, a4⟩ := apply_step m op h
    obtain ⟨b1, b2, b3, b4⟩ := ih (m.apply op) a4
    exact ⟨a1.trans b1, a2.trans b2, a3.trans b3, b4⟩

theorem crashLoop_sink (recvs : List (Except Unit PackageData)) :
    ∀ (storage : StorageModel),
      (crashLoop storage recvs).sentOf = [] ∧
        (crashLoop storage recvs).isDone = false := by
  induction recvs with
  | nil => exact fun _ => ⟨rfl, rfl⟩
  | cons r rest ih =>
    intro storage
    cases r with
    | error e => exact ⟨rfl, rfl⟩
    | ok d => exact ih (crashWrite storage d)

theorem crashLoop_writes (ds : List PackageData) : ∀ (w0 : List Publish),
    crashLoop ⟨[], [], [], [], w0⟩ (ds.map Except.ok) =
      .stuck ⟨[], [], [], [], w0 ++ ds.map (fun d => ⟨d.topic, d.payload, 1⟩)⟩ [] := by
  induction ds with
  | nil => intro w0; simp [crashLoop]
  | cons d ds ih =>
    intro w0
    have step : crashLoop ⟨[], [], [], [], w0⟩ ((d :: ds).map Except.ok) =
        crashLoop ⟨[], [], [], [], w0 ++ [(⟨d.topic, d.payload, 1⟩ : Publish)]⟩
          (ds.map Except.ok) := rfl
    rw [step, ih]
    simp

/-- C1: the claim says `Serializer::crash` writes the carried failed publish
to the spool before any subsequently received data.  The code (serializer.rs
84-112) only sets `pkid = 1` on it and never writes it: starting `crash` with
pending publish `t/a # [1,2,3]` and then receiving one package for `t/b`,
the spool's written log holds exactly the `t/b` record, and the carried
publish (with its pkid set to 1) is not in it. -/
theorem C1_crash_never_writes_pending :
    crash ⟨"t/a", [1, 2, 3], 0⟩ ⟨[], [], [], [], []⟩ [.ok ⟨"t/b", [9, 9], none⟩] =
        .stuck ⟨[], [], [], [], [⟨"t/b", [9, 9], 1⟩]⟩ [] ∧
      (⟨"t/a", [1, 2, 3], 1⟩ : Publish) ∉ [(⟨"t/b", [9, 9], 1⟩ : Publish)] :=
  ⟨rfl, by decide⟩

/-- C2 counterexample: a line that parses as a Point, received while no
action is awaiting a response (`current_action = none`), is not routed into
the Partition Set: `collectStep` leaves the `fills` log empty (bridge.rs
108-114 drops the line with `Action timed out already`), contradicting the
claim that routing happens regardless of a pending action. -/
theorem C2_point_dropped_without_pending_action :
    collectStep ⟨none, [], [], []⟩ (.frame (some (.ok (.point "imu" "v1")))) =
      .cont ⟨none, [], [], []⟩ :=
  rfl

/-- C2 amended: a Point line is routed through `partitions.fill` exactly when
an action is currently awaiting a response (and routing consumes that pending
action); with no pending action the line is dropped and the state is
unchanged. -/
theorem C2_fill_requires_pending_action (id str rest : String)
    (fills : List (String × String)) (sts : List ActionResponse)
    (sa : List Action) :
    collectStep ⟨some id, fills, sts, sa⟩ (.frame (some (.ok (.point str rest)))) =
        .cont ⟨none, fills ++ [(str, rest)], sts, sa⟩ ∧
      collectStep ⟨none, fills, sts, sa⟩ (.frame (some (.ok (.point str rest)))) =
        .cont ⟨none, fills, sts, sa⟩ :=
  ⟨rfl, rfl⟩

/-- C3: the claim says every reload/read error branch in `catchup` is handled
by logging and forcing `Normal`, never a crash.  The code panics in two of
the named branches: an `Err` from the very first `reload_on_eof` hits
`.unwrap()` (serializer.rs 177) and a non-Publish packet read back hits
`unreachable!` (serializer.rs 183); only a read `Err` is handled by forcing
`Normal` (third conjunct, serializer.rs 184-187). -/
theorem C3_catchup_panics_on_first_reload_error :
    catchup ⟨[.error ()], [], [], [], []⟩ (Metrics.new "m") [] =
        .panicked ⟨[], [], [], [], []⟩ (Metrics.new "m") [] [] ∧
      catchup ⟨[.ok false], [.ok .other], [], [], []⟩ (Metrics.new "m") [] =
        .panicked ⟨[], [], [], [], []⟩ (Metrics.new "m") [] [] ∧
      catchup ⟨[.ok false], [.error ()], [], [], []⟩ (Metrics.new "m") [] =
        .done .Normal ⟨[], [], [], [], []⟩ (Metrics.new "m") [] [] :=
  ⟨rfl, rfl, rfl⟩

/-- C4: the claim says an unparseable stdout line is emitted as a failure
response whose id equals the executing action's id.  The capture task
(process.rs 86) hardcodes `ActionResponse::failure("dummy", ...)`: for an
action with id `a1`, the emitted response's id is `dummy`, not `a1`. -/
theorem C4_unparseable_line_uses_dummy_id :
    captureStep ⟨[], false⟩ (.line (.unparseable "expected value at line 1")) =
        .looping ⟨[⟨"dummy", "Failed", ["expected value at line 1"]⟩], false⟩ ∧
      ("dummy" : String) ≠ "a1" :=
  ⟨rfl, by decide⟩

/-- C5: from `EventLoopReady` with an empty spool (first `reload_on_eof`
returns `true`), one `start` iteration performs exactly the transition to
`Normal`; `catchup` returns `Normal` with no publish handed to the transport
(`sent = []`), the event script untouched (no collector receive), and the
metrics unchanged. -/
theorem C5_ready_empty_spool_single_transition (m : Metrics)
    (rl : List (Except Unit Bool)) (rd : List (Except Unit Packet))
    (w : List (Except Unit Unit)) (f : List (Except Unit (Option Nat)))
    (wr : List Publish) (tries : List TryOutcome) (nevs : List NormalEv)
    (cevs : List CatchupEv) (devs : List DiskEv)
    (recvs : List (Except Unit PackageData)) :
    startStep m .EventLoopReady
        ⟨⟨.ok true :: rl, rd, w, f, wr⟩, tries, nevs, cevs, devs, recvs⟩ =
        .next .Normal ∧
      catchup ⟨.ok true :: rl, rd, w, f, wr⟩ m cevs =
        .done .Normal ⟨rl, rd, w, f, wr⟩ m [] cevs :=
  ⟨rfl, rfl⟩

/-- C6: in `Normal`, for a received collector package: a successful
`try_publish` adds the payload size to `total_sent_size` and the loop
continues (state stays Normal); a queue-full failure returns
`SlowEventloop` carrying exactly the rejected publish built from the
package's topic and payload; a terminal client error propagates as `Err` to
the caller.  Anomalies are recorded in all three cases and the `try_publish`
call is logged. -/
theorem C6_normal_try_publish_outcomes (m : Metrics) (tries : List TryOutcome)
    (calls : List (String × Bytes)) (d : PackageData) :
    normalStep ⟨m, .ok :: tries, calls⟩ (.coll (.ok d)) =
        .cont ⟨(addAnomalies m d.anomalies).add_total_sent_size d.payload.length,
          tries, calls ++ [(d.topic, d.payload)]⟩ ∧
      normalStep ⟨m, .queueFull :: tries, calls⟩ (.coll (.ok d)) =
        .done (.SlowEventloop ⟨d.topic, d.payload, 0⟩)
          ⟨addAnomalies m d.anomalies, tries, calls ++ [(d.topic, d.payload)]⟩ ∧
      normalStep ⟨m, .clientDead :: tries, calls⟩ (.coll (.ok d)) =
        .fail ⟨addAnomalies m d.anomalies, tries, calls ++ [(d.topic, d.payload)]⟩ :=
  ⟨rfl, rfl, rfl⟩

/-- C7 counterexample: the claim says the `errors` string never exceeds 1024
characters.  One `add_errors` call on fresh metrics with a 1022-character
tag yields an `errors` string of length 1025 (`add_errors` checks
`len() > 1024` before appending, so a call made at or below the cap appends
in full). -/
theorem C7_errors_can_exceed_cap :
    1024 < ((Metrics.new "metrics").add_errors bigTag 1).errors.length :=
  overCap_length

/-- C7 amended: once the `errors` string's length exceeds 1024 characters,
every further `add_errors` call (any sequence of them) increments
`error_count` by its count but appends nothing to `errors`. -/
theorem C7_errors_frozen_once_over_cap (m : Metrics) (l : List (String × Nat))
    (h : 1024 < m.errors.length) :
    (m.addErrorsAll l).errors = m.errors ∧
      (m.addErrorsAll l).error_count = m.error_count + sumCounts l := by
  induction l generalizing m with
  | nil => exact ⟨rfl, by simp [Metrics.addErrorsAll, sumCounts]⟩
  | cons p rest ih =>
    obtain ⟨e, c⟩ := p
    have he : m.add_errors e c = { m with error_count := m.error_count + c } :=
      add_errors_frozen m e c h
    have h2 : 1024 < (m.add_errors e c).errors.length := by rw [he]; exact h
    obtain ⟨ih1, ih2⟩ := ih (m.add_errors e c) h2
    constructor
    · rw [show (m.addErrorsAll ((e, c) :: rest)) = (m.add_errors e c).addErrorsAll rest
        from rfl, ih1, he]
    · rw [show (m.addErrorsAll ((e, c) :: rest)) = (m.add_errors e c).addErrorsAll rest
        from rfl, ih2, he]
      show m.error_count + c + sumCounts rest = m.error_count + sumCounts ((e, c) :: rest)
      simp [sumCounts]
      omega

/-- C7 witness: metrics whose `errors` is already 1025 characters long
satisfy the amended claim for the call sequence `[("x", 2)]`. -/
theorem C7_errors_frozen_once_over_cap_witness :
    1024 < overCapMetrics.errors.length ∧
      ((overCapMetrics.addErrorsAll [("x", 2)]).errors = overCapMetrics.errors ∧
        (overCapMetrics.addErrorsAll [("x", 2)]).error_count =
          overCapMetrics.error_count + sumCounts [("x", 2)]) :=
  ⟨overCap_length, C7_errors_frozen_once_over_cap overCapMetrics [("x", 2)] overCap_length⟩

/-- C8: immediately after `Metrics::next`, `errors` is empty and
`lost_segments` is 0, `error_count` is unchanged and `sequence` grew by
exactly 1; and across any sequence of metrics operations `sequence`,
`error_count` and `total_sent_size` are monotonically nondecreasing (the
`total_sent_size` part under the `usize` range invariant, which every
reachable value satisfies since `saturating_add` caps at `USIZE_MAX`). -/
theorem C8_metrics_next_and_monotone (m : Metrics) (now : Nat) (ops : List MOp)
    (h : m.total_sent_size ≤ USIZE_MAX) :
    ((m.next now).1.errors = "" ∧ (m.next now).1.lost_segments = 0 ∧
        (m.next now).1.error_count = m.error_count ∧
        (m.next now).1.sequence = m.sequence + 1) ∧
      (m.sequence ≤ (m.applyAll ops).sequence ∧
        m.error_count ≤ (m.applyAll ops).error_count ∧
        m.total_sent_size ≤ (m.applyAll ops).total_sent_size) := by
  refine ⟨⟨rfl, rfl, rfl, rfl⟩, ?_⟩
  obtain ⟨h1, h2, h3, _⟩ := applyAll_mono ops m h
  exact ⟨h1, h2, h3⟩

/-- C8 witness: fresh metrics, clock 7, and the operation sequence
`addSent 5; addErrors "e" 2; next 9`. -/
theorem C8_metrics_next_and_monotone_witness :
    (Metrics.new "t").total_sent_size ≤ USIZE_MAX ∧
      ((((Metrics.new "t").next 7).1.errors = "" ∧
          ((Metrics.new "t").next 7).1.lost_segments = 0 ∧
          ((Metrics.new "t").next 7).1.error_count = (Metrics.new "t").error_count ∧
          ((Metrics.new "t").next 7).1.sequence = (Metrics.new "t").sequence + 1) ∧
        ((Metrics.new "t").sequence ≤
            ((Metrics.new "t").applyAll [.addSent 5, .addErrors "e" 2, .next 9]).sequence ∧
          (Metrics.new "t").error_count ≤
            ((Metrics.new "t").applyAll [.addSent 5, .addErrors "e" 2, .next 9]).error_count ∧
          (Metrics.new "t").total_sent_size ≤
            ((Metrics.new "t").applyAll
              [.addSent 5, .addErrors "e" 2, .next 9]).total_sent_size)) :=
  ⟨by decide,
    C8_metrics_next_and_monotone (Metrics.new "t") 7
      [.addSent 5, .addErrors "e" 2, .next 9] (by decide)⟩

/-- C9: `crash` is a sink: it hands no publish to the transport client
(`sentOf = []`), it never returns an `Ok(status)` (`isDone = false`, so the
serializer never leaves `EventLoopCrash` on its own — its only exit is the
collector channel failing, i.e. process restart territory), and every
received package is written to the spool as a `pkid = 1` publish (shown for
the unconstrained-oracle script, where writes and flushes succeed). -/
theorem C9_crash_is_sink :
    (∀ (p : Publish) (storage : StorageModel)
        (recvs : List (Except Unit PackageData)),
        (crash p storage recvs).sentOf = [] ∧
          (crash p storage recvs).isDone = false) ∧
      ∀ (p : Publish) (w0 : List Publish) (ds : List PackageData),
        crash p ⟨[], [], [], [], w0⟩ (ds.map Except.ok) =
          .stuck ⟨[], [], [], [], w0 ++ ds.map (fun d => ⟨d.topic, d.payload, 1⟩)⟩ [] :=
  ⟨fun _ storage recvs => crashLoop_sink recvs storage,
    fun _ w0 ds => crashLoop_writes ds w0⟩

/-- C10: in `catchup`, when the pending send completes and the next spooled
publish `p` is read, the very step that hands `p` to `send_publish` already
moves `p.payload.length` from `total_disk_size` to `total_sent_size` (the
result is `cont` with `p` pending, i.e. the send has not completed yet); and
the first spooled publish read on entering `catchup` is handed to
`send_publish` with the metrics untouched. -/
theorem C10_catchup_metrics_at_handoff (m : Metrics) (p : Publish)
    (rl : List (Except Unit Bool)) (rd : List (Except Unit Packet))
    (w : List (Except Unit Unit)) (f : List (Except Unit (Option Nat)))
    (wr : List Publish) (pend : Publish) (sent : List Publish) :
    catchup ⟨.ok false :: rl, .ok (.publish p) :: rd, w, f, wr⟩ m [] =
        .stuck ⟨⟨rl, rd, w, f, wr⟩, m, p, [p]⟩ ∧
      catchupStep ⟨⟨.ok false :: rl, .ok (.publish p) :: rd, w, f, wr⟩, m, pend, sent⟩
          (.sendDone .ok) =
        .cont ⟨⟨rl, rd, w, f, wr⟩,
          (m.sub_total_disk_size p.payload.length).add_total_sent_size p.payload.length,
          p, sent ++ [p]⟩ :=
  ⟨rfl, rfl⟩

end Uplink
